import Mathlib

/-!
Verification of the rust-GSL safety layer: the error-taxonomy translation
(`Error::handle` / `Error::to_c` in `src/error.rs`), the global error-handler
registry (`set_handler`, `set_handler_off`, `inner_error_handler`), the domain
enum transcoders (`blas.rs`, `enums.rs`), the length checks of the BLAS/CBLAS
call-through wrappers, and the filter workspace constructors
(`src/types/filter.rs`), shallowly embedded in Lean.

Machine integers (`c_int`) are modelled as `Int`; the native library is
external, so a wrapper that calls into it takes the native routine's status
code (or the allocator's returned pointer) as an explicit argument.
-/

/- Native status-code constants.  They are produced by bindgen from the GSL
headers into the `gsl-sys` crate and are not part of the Rust sources proper;
the values below are the GSL `gsl_errno.h` values, matching the spec's
description: success is one fixed sentinel and each failure sentinel is a
small distinct integer. -/

/-- Modelled from the spec: the native success sentinel `sys::GSL_SUCCESS`
(bindgen output, absent from the Rust sources). -/
def GSL_SUCCESS : Int := 0

/-- Modelled from the spec: the native code `sys::GSL_FAILURE`. -/
def GSL_FAILURE : Int := -1

/-- Modelled from the spec: the native code `sys::GSL_CONTINUE`. -/
def GSL_CONTINUE : Int := -2

/-- Modelled from the spec: the native code `sys::GSL_EDOM`. -/
def GSL_EDOM : Int := 1

/-- Modelled from the spec: the native code `sys::GSL_ERANGE`. -/
def GSL_ERANGE : Int := 2

/-- Modelled from the spec: the native code `sys::GSL_EFAULT`. -/
def GSL_EFAULT : Int := 3

/-- Modelled from the spec: the native code `sys::GSL_EINVAL`. -/
def GSL_EINVAL : Int := 4

/-- Modelled from the spec: the native code `sys::GSL_EFAILED`. -/
def GSL_EFAILED : Int := 5

/-- Modelled from the spec: the native code `sys::GSL_EFACTOR`. -/
def GSL_EFACTOR : Int := 6

/-- Modelled from the spec: the native code `sys::GSL_ESANITY`. -/
def GSL_ESANITY : Int := 7

/-- Modelled from the spec: the native code `sys::GSL_ENOMEM`. -/
def GSL_ENOMEM : Int := 8

/-- Modelled from the spec: the native code `sys::GSL_EBADFUNC`. -/
def GSL_EBADFUNC : Int := 9

/-- Modelled from the spec: the native code `sys::GSL_ERUNAWAY`. -/
def GSL_ERUNAWAY : Int := 10

/-- Modelled from the spec: the native code `sys::GSL_EMAXITER`. -/
def GSL_EMAXITER : Int := 11

/-- Modelled from the spec: the native code `sys::GSL_EZERODIV`. -/
def GSL_EZERODIV : Int := 12

/-- Modelled from the spec: the native code `sys::GSL_EBADTOL`. -/
def GSL_EBADTOL : Int := 13

/-- Modelled from the spec: the native code `sys::GSL_ETOL`. -/
def GSL_ETOL : Int := 14

/-- Modelled from the spec: the native code `sys::GSL_EUNDRFLW`. -/
def GSL_EUNDRFLW : Int := 15

/-- Modelled from the spec: the native code `sys::GSL_EOVRFLW`. -/
def GSL_EOVRFLW : Int := 16

/-- Modelled from the spec: the native code `sys::GSL_ELOSS`. -/
def GSL_ELOSS : Int := 17

/-- Modelled from the spec: the native code `sys::GSL_EROUND`. -/
def GSL_EROUND : Int := 18

/-- Modelled from the spec: the native code `sys::GSL_EBADLEN`. -/
def GSL_EBADLEN : Int := 19

/-- Modelled from the spec: the native code `sys::GSL_ENOTSQR`. -/
def GSL_ENOTSQR : Int := 20

/-- Modelled from the spec: the native code `sys::GSL_ESING`. -/
def GSL_ESING : Int := 21

/-- Modelled from the spec: the native code `sys::GSL_EDIVERGE`. -/
def GSL_EDIVERGE : Int := 22

/-- Modelled from the spec: the native code `sys::GSL_EUNSUP`. -/
def GSL_EUNSUP : Int := 23

/-- Modelled from the spec: the native code `sys::GSL_EUNIMPL`. -/
def GSL_EUNIMPL : Int := 24

/-- Modelled from the spec: the native code `sys::GSL_ECACHE`. -/
def GSL_ECACHE : Int := 25

/-- Modelled from the spec: the native code `sys::GSL_ETABLE`. -/
def GSL_ETABLE : Int := 26

/-- Modelled from the spec: the native code `sys::GSL_ENOPROG`. -/
def GSL_ENOPROG : Int := 27

/-- Modelled from the spec: the native code `sys::GSL_ENOPROGJ`. -/
def GSL_ENOPROGJ : Int := 28

/-- Modelled from the spec: the native code `sys::GSL_ETOLF`. -/
def GSL_ETOLF : Int := 29

/-- Modelled from the spec: the native code `sys::GSL_ETOLX`. -/
def GSL_ETOLX : Int := 30

/-- Modelled from the spec: the native code `sys::GSL_ETOLG`. -/
def GSL_ETOLG : Int := 31

/-- Modelled from the spec: the native code `sys::GSL_EOF`. -/
def GSL_EOF : Int := 32

/-- The `Error` enumeration of `src/error.rs` (34 named variants plus the
`Unknown(i32)` catch-all). -/
inductive Error where
  | Failure
  | Continue
  | Domain
  | Range
  | Fault
  | Invalid
  | Failed
  | Factorization
  | Sanity
  | NoMemory
  | BadFunction
  | RunAway
  | MaxIteration
  | ZeroDiv
  | BadTolerance
  | Tolerance
  | UnderFlow
  | OverFlow
  | Loss
  | Round
  | BadLength
  | NotSquare
  | Singularity
  | Diverge
  | Unsupported
  | Unimplemented
  | Cache
  | Table
  | NoProgress
  | NoProgressJacobian
  | ToleranceF
  | ToleranceX
  | ToleranceG
  | EOF
  | Unknown (code : Int)
  deriving DecidableEq, Repr

deriving instance DecidableEq for Except

/-- `Error::handle` of `src/error.rs` (lines 140-179): translate a native
status code into `Ok(x)` on success and a named `Error` variant (or
`Unknown(code)`) otherwise.  The Rust `match` on integer patterns is embedded
as the corresponding chain of equality tests. -/
def Error.handle {α : Type} (v : Int) (x : α) : Except Error α :=
  if v = GSL_SUCCESS then .ok x
  else if v = GSL_FAILURE then .error .Failure
  else if v = GSL_CONTINUE then .error .Continue
  else if v = GSL_EDOM then .error .Domain
  else if v = GSL_ERANGE then .error .Range
  else if v = GSL_EFAULT then .error .Fault
  else if v = GSL_EINVAL then .error .Invalid
  else if v = GSL_EFAILED then .error .Failed
  else if v = GSL_EFACTOR then .error .Factorization
  else if v = GSL_ESANITY then .error .Sanity
  else if v = GSL_ENOMEM then .error .NoMemory
  else if v = GSL_EBADFUNC then .error .BadFunction
  else if v = GSL_ERUNAWAY then .error .RunAway
  else if v = GSL_EMAXITER then .error .MaxIteration
  else if v = GSL_EZERODIV then .error .ZeroDiv
  else if v = GSL_EBADTOL then .error .BadTolerance
  else if v = GSL_ETOL then .error .Tolerance
  else if v = GSL_EUNDRFLW then .error .UnderFlow
  else if v = GSL_EOVRFLW then .error .OverFlow
  else if v = GSL_ELOSS then .error .Loss
  else if v = GSL_EROUND then .error .Round
  else if v = GSL_EBADLEN then .error .BadLength
  else if v = GSL_ENOTSQR then .error .NotSquare
  else if v = GSL_ESING then .error .Singularity
  else if v = GSL_EDIVERGE then .error .Diverge
  else if v = GSL_EUNSUP then .error .Unsupported
  else if v = GSL_EUNIMPL then .error .Unimplemented
  else if v = GSL_ECACHE then .error .Cache
  else if v = GSL_ETABLE then .error .Table
  else if v = GSL_ENOPROG then .error .NoProgress
  else if v = GSL_ENOPROGJ then .error .NoProgressJacobian
  else if v = GSL_ETOLF then .error .ToleranceF
  else if v = GSL_ETOLX then .error .ToleranceX
  else if v = GSL_ETOLG then .error .ToleranceG
  else if v = GSL_EOF then .error .EOF
  else .error (.Unknown v)

/-- `Error::to_c` of `src/error.rs` (lines 181-221): translate a
`Result<(), Error>` back into a native status code. -/
def Error.to_c (x : Except Error Unit) : Int :=
  match x with
  | .ok _ => GSL_SUCCESS
  | .error .Failure => GSL_FAILURE
  | .error .Continue => GSL_CONTINUE
  | .error .Domain => GSL_EDOM
  | .error .Range => GSL_ERANGE
  | .error .Fault => GSL_EFAULT
  | .error .Invalid => GSL_EINVAL
  | .error .Failed => GSL_EFAILED
  | .error .Factorization => GSL_EFACTOR
  | .error .Sanity => GSL_ESANITY
  | .error .NoMemory => GSL_ENOMEM
  | .error .BadFunction => GSL_EBADFUNC
  | .error .RunAway => GSL_ERUNAWAY
  | .error .MaxIteration => GSL_EMAXITER
  | .error .ZeroDiv => GSL_EZERODIV
  | .error .BadTolerance => GSL_EBADTOL
  | .error .Tolerance => GSL_ETOL
  | .error .UnderFlow => GSL_EUNDRFLW
  | .error .OverFlow => GSL_EOVRFLW
  | .error .Loss => GSL_ELOSS
  | .error .Round => GSL_EROUND
  | .error .BadLength => GSL_EBADLEN
  | .error .NotSquare => GSL_ENOTSQR
  | .error .Singularity => GSL_ESING
  | .error .Diverge => GSL_EDIVERGE
  | .error .Unsupported => GSL_EUNSUP
  | .error .Unimplemented => GSL_EUNIMPL
  | .error .Cache => GSL_ECACHE
  | .error .Table => GSL_ETABLE
  | .error .NoProgress => GSL_ENOPROG
  | .error .NoProgressJacobian => GSL_ENOPROGJ
  | .error .ToleranceF => GSL_ETOLF
  | .error .ToleranceX => GSL_ETOLX
  | .error .ToleranceG => GSL_ETOLG
  | .error .EOF => GSL_EOF
  | .error (.Unknown c) => c

/-- The 34 named `Error` variants (every variant except `Unknown`). -/
def namedVariants : List Error :=
  [.Failure, .Continue, .Domain, .Range, .Fault, .Invalid, .Failed,
   .Factorization, .Sanity, .NoMemory, .BadFunction, .RunAway, .MaxIteration,
   .ZeroDiv, .BadTolerance, .Tolerance, .UnderFlow, .OverFlow, .Loss, .Round,
   .BadLength, .NotSquare, .Singularity, .Diverge, .Unsupported,
   .Unimplemented, .Cache, .Table, .NoProgress, .NoProgressJacobian,
   .ToleranceF, .ToleranceX, .ToleranceG, .EOF]

/-- The 34 named native failure codes (every named sentinel except the
success sentinel). -/
def namedErrorCodes : List Int :=
  [GSL_FAILURE, GSL_CONTINUE, GSL_EDOM, GSL_ERANGE, GSL_EFAULT, GSL_EINVAL,
   GSL_EFAILED, GSL_EFACTOR, GSL_ESANITY, GSL_ENOMEM, GSL_EBADFUNC,
   GSL_ERUNAWAY, GSL_EMAXITER, GSL_EZERODIV, GSL_EBADTOL, GSL_ETOL,
   GSL_EUNDRFLW, GSL_EOVRFLW, GSL_ELOSS, GSL_EROUND, GSL_EBADLEN,
   GSL_ENOTSQR, GSL_ESING, GSL_EDIVERGE, GSL_EUNSUP, GSL_EUNIMPL,
   GSL_ECACHE, GSL_ETABLE, GSL_ENOPROG, GSL_ENOPROGJ, GSL_ETOLF, GSL_ETOLX,
   GSL_ETOLG, GSL_EOF]

/-- All 35 named native status codes, the success sentinel included. -/
def namedCodes : List Int := GSL_SUCCESS :: namedErrorCodes

example : Error.handle GSL_EMAXITER () = Except.error Error.MaxIteration := by decide

example : Error.to_c (Error.handle GSL_EMAXITER ()) = GSL_EMAXITER := by decide

/-- `true` on every `Error` variant except the `Unknown` catch-all. -/
def Error.isNamed : Error → Bool
  | .Unknown _ => false
  | _ => true

/-- The `Error` variant a native code decodes to (observer derived from
`Error.handle`; on the success code it is irrelevant and defaults to
`Unknown`). -/
def decodeError (c : Int) : Error :=
  match Error.handle c () with
  | .error e => e
  | .ok _ => .Unknown c

/-- A nonzero code outside the named sentinels decodes to `Unknown` carrying
the original code. -/
theorem handle_of_ne_zero_not_named {α : Type} (v : Int) (x : α) (h0 : v ≠ 0)
    (hn : v ∉ namedErrorCodes) : Error.handle v x = Except.error (Error.Unknown v) := by
  simp only [namedErrorCodes, GSL_FAILURE, GSL_CONTINUE, GSL_EDOM, GSL_ERANGE,
    GSL_EFAULT, GSL_EINVAL, GSL_EFAILED, GSL_EFACTOR, GSL_ESANITY, GSL_ENOMEM,
    GSL_EBADFUNC, GSL_ERUNAWAY, GSL_EMAXITER, GSL_EZERODIV, GSL_EBADTOL,
    GSL_ETOL, GSL_EUNDRFLW, GSL_EOVRFLW, GSL_ELOSS, GSL_EROUND, GSL_EBADLEN,
    GSL_ENOTSQR, GSL_ESING, GSL_EDIVERGE, GSL_EUNSUP, GSL_EUNIMPL, GSL_ECACHE,
    GSL_ETABLE, GSL_ENOPROG, GSL_ENOPROGJ, GSL_ETOLF, GSL_ETOLX, GSL_ETOLG,
    GSL_EOF, List.mem_cons, List.not_mem_nil, or_false, not_or] at hn
  obtain ⟨h1, h2, h3, h4, h5, h6, h7, h8, h9, h10, h11, h12, h13, h14, h15,
    h16, h17, h18, h19, h20, h21, h22, h23, h24, h25, h26, h27, h28, h29,
    h30, h31, h32, h33, h34⟩ := hn
  simp [Error.handle, GSL_SUCCESS, GSL_FAILURE, GSL_CONTINUE, GSL_EDOM,
    GSL_ERANGE, GSL_EFAULT, GSL_EINVAL, GSL_EFAILED, GSL_EFACTOR, GSL_ESANITY,
    GSL_ENOMEM, GSL_EBADFUNC, GSL_ERUNAWAY, GSL_EMAXITER, GSL_EZERODIV,
    GSL_EBADTOL, GSL_ETOL, GSL_EUNDRFLW, GSL_EOVRFLW, GSL_ELOSS, GSL_EROUND,
    GSL_EBADLEN, GSL_ENOTSQR, GSL_ESING, GSL_EDIVERGE, GSL_EUNSUP,
    GSL_EUNIMPL, GSL_ECACHE, GSL_ETABLE, GSL_ENOPROG, GSL_ENOPROGJ, GSL_ETOLF,
    GSL_ETOLX, GSL_ETOLG, GSL_EOF, h0, h1, h2, h3, h4, h5, h6, h7, h8, h9,
    h10, h11, h12, h13, h14, h15, h16, h17, h18, h19, h20, h21, h22, h23,
    h24, h25, h26, h27, h28, h29, h30, h31, h32, h33, h34]

/-- Every nonzero code decodes to an error (never to `Ok`). -/
theorem handle_err_of_ne_zero (v : Int) (h0 : v ≠ 0) :
    Error.handle v () = Except.error (decodeError v) := by
  by_cases hn : v ∈ namedErrorCodes
  · have H : ∀ c ∈ namedErrorCodes,
        Error.handle c () = Except.error (decodeError c) := by decide
    exact H v hn
  · rw [handle_of_ne_zero_not_named v () h0 hn]
    have h : decodeError v = Error.Unknown v := by
      unfold decodeError
      rw [handle_of_ne_zero_not_named v () h0 hn]
    rw [h]

/-- C1: the two translation directions of the error taxonomy are mutual
inverses on the named set: `handle (to_c (Err e)) = Err e` for each of the 34
named variants `e`, and `to_c (handle c) = c` for each of the 35 named native
codes `c` (success sentinel included). -/
theorem error_round_trip :
    (∀ e ∈ namedVariants,
       Error.handle (Error.to_c (Except.error e)) () = Except.error e) ∧
    (∀ c ∈ namedCodes, Error.to_c (Error.handle c ()) = c) := by decide

/-- Witness for C1 at the concrete variant `Domain` and the concrete named
code `GSL_EMAXITER`. -/
theorem error_round_trip_witness :
    (Error.Domain ∈ namedVariants ∧
      Error.handle (Error.to_c (Except.error Error.Domain)) () =
        Except.error Error.Domain) ∧
    (GSL_EMAXITER ∈ namedCodes ∧
      Error.to_c (Error.handle GSL_EMAXITER ()) = GSL_EMAXITER) :=
  ⟨⟨by decide, error_round_trip.1 Error.Domain (by decide)⟩,
   ⟨by decide, error_round_trip.2 GSL_EMAXITER (by decide)⟩⟩

/-- C2: `Error::handle` is total (it is a Lean `def`, defined on every `Int`
input); on the success sentinel it returns `Ok(x)` and on every nonzero code
outside the named sentinels it returns `Err(Unknown c)` carrying the original
code. -/
theorem handle_total_unknown_safe {α : Type} (c : Int) (x : α) :
    (c = GSL_SUCCESS → Error.handle c x = Except.ok x) ∧
    (c ≠ 0 → c ∉ namedErrorCodes →
      Error.handle c x = Except.error (Error.Unknown c)) := by
  constructor
  · intro h
    simp [Error.handle, h]
  · intro h0 hn
    exact handle_of_ne_zero_not_named c x h0 hn

/-- Witness for C2 at the success code `0` and the unrecognized code `99`. -/
theorem handle_total_unknown_safe_witness :
    Error.handle (0 : Int) (42 : Nat) = Except.ok 42 ∧
    Error.handle (99 : Int) (42 : Nat) = Except.error (Error.Unknown 99) :=
  ⟨(handle_total_unknown_safe 0 42).1 (by decide),
   (handle_total_unknown_safe 99 42).2 (by decide) (by decide)⟩

/-- C9: `to_c` maps `Err(Unknown c)` to `c` for every `c`; the round trip
`handle (to_c (Err (Unknown c)))` returns `Err(Unknown c)` exactly when `c`
is outside the named sentinels and nonzero; when `c` collides with the
success code it returns `Ok`, and when it collides with a named sentinel it
returns that named variant's `Err`. -/
theorem unknown_round_trip (c : Int) :
    Error.to_c (Except.error (Error.Unknown c)) = c ∧
    (c ≠ 0 → c ∉ namedErrorCodes →
      Error.handle (Error.to_c (Except.error (Error.Unknown c))) () =
        Except.error (Error.Unknown c)) ∧
    (c = 0 →
      Error.handle (Error.to_c (Except.error (Error.Unknown c))) () =
        Except.ok ()) ∧
    (c ∈ namedErrorCodes →
      Error.handle (Error.to_c (Except.error (Error.Unknown c))) () =
        Except.error (decodeError c) ∧
      (decodeError c).isNamed = true) := by
  refine ⟨rfl, ?_, ?_, ?_⟩
  · intro h0 hn
    have h : Error.to_c (Except.error (Error.Unknown c)) = c := rfl
    rw [h]
    exact handle_of_ne_zero_not_named c () h0 hn
  · intro h
    subst h
    decide
  · intro hn
    have h : Error.to_c (Except.error (Error.Unknown c)) = c := rfl
    rw [h]
    have H : ∀ c' ∈ namedErrorCodes,
        Error.handle c' () = Except.error (decodeError c') ∧
        (decodeError c').isNamed = true := by decide
    exact H c hn

/-- Witness for C9 at the non-colliding code `77` and the colliding named
code `19` (the `BadLength` sentinel). -/
theorem unknown_round_trip_witness :
    Error.handle (Error.to_c (Except.error (Error.Unknown 77))) () =
      Except.error (Error.Unknown 77) ∧
    (Error.handle (Error.to_c (Except.error (Error.Unknown 19))) () =
       Except.error (decodeError 19) ∧
     (decodeError 19).isNamed = true) :=
  ⟨(unknown_round_trip 77).2.1 (by decide) (by decide),
   (unknown_round_trip 19).2.2.2 (by decide)⟩

/-- The state of the native library's global error hook.  `gslDefault` is
GSL's built-in handler (print the message and abort); `rustHandler` is the
`inner_error_handler` adapter installed by `set_handler(Some(_))`; `noOp` is
the do-nothing handler installed by `gsl_set_error_handler_off`. -/
inductive NativeHook where
  | gslDefault
  | rustHandler
  | noOp
  deriving DecidableEq, Repr

/-- The global error-handler registry of `src/error.rs`: the `CALLBACK`
static (line 224; callbacks are modelled by abstract identifiers) together
with the native library's global hook that `set_handler` and
`set_handler_off` install and remove. -/
structure Registry where
  callback : Option Nat
  native : NativeHook
  deriving DecidableEq, Repr

/-- `set_handler` (error.rs lines 270-284): take the previously stored
callback out of `CALLBACK` and return it; on `Some f` store `f` and install
the `inner_error_handler` adapter as the native hook; on `None` pass NULL to
`gsl_set_error_handler`, which restores GSL's default print-and-abort
behavior (doc comment at error.rs lines 261-267). -/
def set_handler (s : Registry) (f : Option Nat) : Option Nat × Registry :=
  let out := s.callback
  match f with
  | some f => (out, { callback := some f, native := .rustHandler })
  | none => (out, { callback := none, native := .gslDefault })

/-- `set_handler_off` (error.rs lines 294-299): install GSL's do-nothing
handler and take the stored callback out of `CALLBACK`, returning it. -/
def set_handler_off (s : Registry) : Option Nat × Registry :=
  (s.callback, { callback := none, native := .noOp })

/-- The registry state at process start: the `CALLBACK` static is initialized
to `None` (error.rs line 224) and the native hook is GSL's default
print-and-abort handler, since the crate contains no startup initialization
code (no life-before-main hook exists; the doc comment at error.rs lines
261-267 calls abort-on-error "the default behavior", and the in-file test at
error.rs lines 324-334 must call `set_handler_off` explicitly before using
the library). -/
def registryInit : Registry := { callback := none, native := .gslDefault }

/-- Truncation of a `c_int` to the `u32` expected by the stored callback
(the `line as _` cast at error.rs line 316). -/
def as_u32 (v : Int) : Int := v % 4294967296

/-- `inner_error_handler` (error.rs lines 301-322): the C-ABI adapter GSL
invokes on an error.  It reads the stored callback; when one is present and
the status code decodes to an error it invokes the callback once with the
message and file (each replaced by "Unknown" when not valid UTF-8), the line
(cast to `u32`) and the decoded `Error`; on the success code it does nothing.
The returned list records the callback invocations performed. -/
def inner_error_handler (s : Registry) (reason file : Option String)
    (line : Int) (gsl_errno : Int) : List (Nat × String × String × Int × Error) :=
  match s.callback with
  | none => []
  | some call =>
    match Error.handle gsl_errno () with
    | .ok _ => []
    | .error e =>
      [(call, reason.getD "Unknown", file.getD "Unknown", as_u32 line, e)]

/-- C4: for any prior registry state `s`, `set_handler(Some f)` followed by
`set_handler(old)` (with `old` the value the first call returned) restores
the stored callback to the one stored before the first call, and every
`set_handler` call returns the callback stored immediately before it. -/
theorem set_handler_swap_restores (s : Registry) (f : Nat) :
    ((set_handler (set_handler s (some f)).2 (set_handler s (some f)).1).2).callback
      = s.callback ∧
    (set_handler s (some f)).1 = s.callback ∧
    (set_handler (set_handler s (some f)).2 (set_handler s (some f)).1).1
      = (set_handler s (some f)).2.callback ∧
    (∀ t g, (set_handler t g).1 = t.callback) := by
  refine ⟨?_, rfl, ?_, fun t g => by cases g <;> rfl⟩
  · cases hc : s.callback <;> simp [set_handler, hc]
  · cases hc : s.callback <;> simp [set_handler, hc]

/-- C5: with a callback stored in the registry and a nonzero native status
code, the adapter decodes the code through the taxonomy and invokes the
stored callback exactly once, with the message, the source file, the line
and the decoded `Error` value. -/
theorem inner_handler_active_invokes_once (cb : Nat) (nh : NativeHook)
    (reason file : Option String) (line : Int) (errno : Int) (h : errno ≠ 0) :
    Error.handle errno () = Except.error (decodeError errno) ∧
    inner_error_handler ⟨some cb, nh⟩ reason file line errno =
      [(cb, reason.getD "Unknown", file.getD "Unknown", as_u32 line,
        decodeError errno)] := by
  have he := handle_err_of_ne_zero errno h
  exact ⟨he, by simp [inner_error_handler, he]⟩

/-- Witness for C5: callback 7, message "input domain error" from file
"bessel.c" line 42, native code 1 (the domain-error sentinel). -/
theorem inner_handler_active_invokes_once_witness :
    inner_error_handler ⟨some 7, NativeHook.rustHandler⟩
        (some "input domain error") (some "bessel.c") 42 1 =
      [(7, "input domain error", "bessel.c", as_u32 42, decodeError 1)] :=
  (inner_handler_active_invokes_once 7 NativeHook.rustHandler
    (some "input domain error") (some "bessel.c") 42 1 (by decide)).2

/-- C8 counterexample: at process start the native abort-on-error behavior
has NOT been disabled — the registry's native hook is still GSL's default
print-and-abort handler, which is neither the no-op handler nor the
translating adapter; no startup hook exists in the crate. -/
theorem startup_abort_counterexample :
    registryInit.native = NativeHook.gslDefault ∧
    NativeHook.gslDefault ≠ NativeHook.noOp ∧
    NativeHook.gslDefault ≠ NativeHook.rustHandler ∧
    registryInit.callback = none := by decide

/-- C8 amended: the abort-on-error behavior is disabled only by explicit
calls — `set_handler_off` unconditionally installs the no-op handler and
`set_handler(Some _)` the translating adapter, while `set_handler(None)`
restores the native default (abort); the initial state still has the native
default installed. -/
theorem abort_disabled_only_explicitly :
    registryInit = { callback := none, native := NativeHook.gslDefault } ∧
    (∀ s, (set_handler_off s).2.native = NativeHook.noOp) ∧
    (∀ s f, (set_handler s (some f)).2.native = NativeHook.rustHandler) ∧
    (∀ s, (set_handler s none).2.native = NativeHook.gslDefault) :=
  ⟨rfl, fun _ => rfl, fun _ _ => rfl, fun _ => rfl⟩

/- CBLAS and Monte-Carlo enum constants.  Like the status codes, they are
bindgen output in `gsl-sys`; the values are the fixed CBLAS/GSL header
constants the spec calls "native integer constants". -/

/-- Modelled from the spec: `sys::CBLAS_ORDER_CblasRowMajor`. -/
def CBLAS_ORDER_CblasRowMajor : Int := 101

/-- Modelled from the spec: `sys::CBLAS_ORDER_CblasColMajor`. -/
def CBLAS_ORDER_CblasColMajor : Int := 102

/-- Modelled from the spec: `sys::CBLAS_TRANSPOSE_CblasNoTrans`. -/
def CBLAS_TRANSPOSE_CblasNoTrans : Int := 111

/-- Modelled from the spec: `sys::CBLAS_TRANSPOSE_CblasTrans`. -/
def CBLAS_TRANSPOSE_CblasTrans : Int := 112

/-- Modelled from the spec: `sys::CBLAS_TRANSPOSE_CblasConjTrans`. -/
def CBLAS_TRANSPOSE_CblasConjTrans : Int := 113

/-- Modelled from the spec: `sys::CBLAS_UPLO_CblasUpper`. -/
def CBLAS_UPLO_CblasUpper : Int := 121

/-- Modelled from the spec: `sys::CBLAS_UPLO_CblasLower`. -/
def CBLAS_UPLO_CblasLower : Int := 122

/-- Modelled from the spec: `sys::CBLAS_DIAG_CblasNonUnit`. -/
def CBLAS_DIAG_CblasNonUnit : Int := 131

/-- Modelled from the spec: `sys::CBLAS_DIAG_CblasUnit`. -/
def CBLAS_DIAG_CblasUnit : Int := 132

/-- Modelled from the spec: `sys::CBLAS_SIDE_CblasLeft`. -/
def CBLAS_SIDE_CblasLeft : Int := 141

/-- Modelled from the spec: `sys::CBLAS_SIDE_CblasRight`. -/
def CBLAS_SIDE_CblasRight : Int := 142

/-- Modelled from the spec: `sys::GSL_VEGAS_MODE_IMPORTANCE`. -/
def GSL_VEGAS_MODE_IMPORTANCE : Int := 1

/-- Modelled from the spec: `sys::GSL_VEGAS_MODE_IMPORTANCE_ONLY`. -/
def GSL_VEGAS_MODE_IMPORTANCE_ONLY : Int := 0

/-- Modelled from the spec: `sys::GSL_VEGAS_MODE_STRATIFIED`. -/
def GSL_VEGAS_MODE_STRATIFIED : Int := -1

/-- The `Transpose` enum of `src/blas.rs` (lines 5-10). -/
inductive blas.Transpose where
  | NoTranspose
  | Transpose
  | ConjugateTranspose
  deriving DecidableEq, Repr

/-- `impl Into<sys::CBLAS_TRANSPOSE> for Transpose` (blas.rs lines 14-22). -/
def blas.Transpose.into : blas.Transpose → Int
  | .NoTranspose => CBLAS_TRANSPOSE_CblasNoTrans
  | .Transpose => CBLAS_TRANSPOSE_CblasTrans
  | .ConjugateTranspose => CBLAS_TRANSPOSE_CblasConjTrans

/-- `impl From<sys::CBLAS_TRANSPOSE> for Transpose` (blas.rs lines 25-34);
the `panic!` on an unknown value is embedded as `none`. -/
def blas.Transpose.fromNative (v : Int) : Option blas.Transpose :=
  if v = CBLAS_TRANSPOSE_CblasNoTrans then some .NoTranspose
  else if v = CBLAS_TRANSPOSE_CblasTrans then some .Transpose
  else if v = CBLAS_TRANSPOSE_CblasConjTrans then some .ConjugateTranspose
  else none

/-- The three native transpose constants. -/
def transposeCodes : List Int :=
  [CBLAS_TRANSPOSE_CblasNoTrans, CBLAS_TRANSPOSE_CblasTrans,
   CBLAS_TRANSPOSE_CblasConjTrans]

/-- The `Uplo` enum of `src/blas.rs` (lines 36-40). -/
inductive blas.Uplo where
  | Upper
  | Lower
  deriving DecidableEq, Repr

/-- `impl Into<sys::CBLAS_UPLO> for Uplo` (blas.rs lines 44-51). -/
def blas.Uplo.into : blas.Uplo → Int
  | .Upper => CBLAS_UPLO_CblasUpper
  | .Lower => CBLAS_UPLO_CblasLower

/-- `impl From<sys::CBLAS_UPLO> for Uplo` (blas.rs lines 54-62); `panic!` on
an unknown value is embedded as `none`. -/
def blas.Uplo.fromNative (v : Int) : Option blas.Uplo :=
  if v = CBLAS_UPLO_CblasUpper then some .Upper
  else if v = CBLAS_UPLO_CblasLower then some .Lower
  else none

/-- The two native uplo constants. -/
def uploCodes : List Int := [CBLAS_UPLO_CblasUpper, CBLAS_UPLO_CblasLower]

/-- The `Order` enum of `src/blas.rs` (lines 64-68). -/
inductive blas.Order where
  | RowMajor
  | ColumnMajor
  deriving DecidableEq, Repr

/-- `impl Into<sys::CBLAS_ORDER> for Order` (blas.rs lines 72-79). -/
def blas.Order.into : blas.Order → Int
  | .RowMajor => CBLAS_ORDER_CblasRowMajor
  | .ColumnMajor => CBLAS_ORDER_CblasColMajor

/-- `impl From<sys::CBLAS_ORDER> for Order` (blas.rs lines 82-90); `panic!`
on an unknown value is embedded as `none`. -/
def blas.Order.fromNative (v : Int) : Option blas.Order :=
  if v = CBLAS_ORDER_CblasRowMajor then some .RowMajor
  else if v = CBLAS_ORDER_CblasColMajor then some .ColumnMajor
  else none

/-- The two native order constants. -/
def orderCodes : List Int := [CBLAS_ORDER_CblasRowMajor, CBLAS_ORDER_CblasColMajor]

/-- The `Side` enum of `src/blas.rs` (lines 92-96). -/
inductive blas.Side where
  | Left
  | Right
  deriving DecidableEq, Repr

/-- `impl Into<sys::CBLAS_SIDE> for Side` (blas.rs lines 100-107). -/
def blas.Side.into : blas.Side → Int
  | .Left => CBLAS_SIDE_CblasLeft
  | .Right => CBLAS_SIDE_CblasRight

/-- `impl From<sys::CBLAS_SIDE> for Side` (blas.rs lines 110-118); `panic!`
on an unknown value is embedded as `none`. -/
def blas.Side.fromNative (v : Int) : Option blas.Side :=
  if v = CBLAS_SIDE_CblasLeft then some .Left
  else if v = CBLAS_SIDE_CblasRight then some .Right
  else none

/-- The two native side constants. -/
def sideCodes : List Int := [CBLAS_SIDE_CblasLeft, CBLAS_SIDE_CblasRight]

/-- The `Diag` enum of `src/blas.rs` (lines 120-124). -/
inductive blas.Diag where
  | NonUnit
  | Unit
  deriving DecidableEq, Repr

/-- `impl Into<sys::CBLAS_SIDE> for Diag` (blas.rs lines 128-135; the values
are the `CBLAS_DIAG_*` constants). -/
def blas.Diag.into : blas.Diag → Int
  | .NonUnit => CBLAS_DIAG_CblasNonUnit
  | .Unit => CBLAS_DIAG_CblasUnit

/-- `impl From<sys::CBLAS_SIDE> for Diag` (blas.rs lines 138-146); `panic!`
on an unknown value is embedded as `none`. -/
def blas.Diag.fromNative (v : Int) : Option blas.Diag :=
  if v = CBLAS_DIAG_CblasNonUnit then some .NonUnit
  else if v = CBLAS_DIAG_CblasUnit then some .Unit
  else none

/-- The two native diag constants. -/
def diagCodes : List Int := [CBLAS_DIAG_CblasNonUnit, CBLAS_DIAG_CblasUnit]

/-- The `VegasMode` enum of `src/enums.rs` (lines 25-34). -/
inductive enums.VegasMode where
  | Importance
  | ImportanceOnly
  | Stratified
  deriving DecidableEq, Repr

/-- `impl Into<c_int> for VegasMode` (enums.rs lines 38-46). -/
def enums.VegasMode.into : enums.VegasMode → Int
  | .Importance => GSL_VEGAS_MODE_IMPORTANCE
  | .ImportanceOnly => GSL_VEGAS_MODE_IMPORTANCE_ONLY
  | .Stratified => GSL_VEGAS_MODE_STRATIFIED

/-- `impl From<c_int> for VegasMode` (enums.rs lines 49-58); `panic!` on an
unknown value is embedded as `none`. -/
def enums.VegasMode.fromNative (v : Int) : Option enums.VegasMode :=
  if v = GSL_VEGAS_MODE_IMPORTANCE then some .Importance
  else if v = GSL_VEGAS_MODE_IMPORTANCE_ONLY then some .ImportanceOnly
  else if v = GSL_VEGAS_MODE_STRATIFIED then some .Stratified
  else none

/-- The three native vegas-mode constants. -/
def vegasModeCodes : List Int :=
  [GSL_VEGAS_MODE_IMPORTANCE, GSL_VEGAS_MODE_IMPORTANCE_ONLY,
   GSL_VEGAS_MODE_STRATIFIED]

/-- C7: each domain enum transcoder is a stateless two-way mapping on its
closed variant set — `into` is total by construction, `fromNative ∘ into` is
the identity on every variant, and `fromNative` fails (the embedded `panic!`,
i.e. `none`) on every integer outside the known constant set. -/
theorem transcoder_two_way :
    ((∀ v : blas.Transpose, blas.Transpose.fromNative v.into = some v) ∧
     (∀ c : Int, c ∉ transposeCodes → blas.Transpose.fromNative c = none)) ∧
    ((∀ v : blas.Uplo, blas.Uplo.fromNative v.into = some v) ∧
     (∀ c : Int, c ∉ uploCodes → blas.Uplo.fromNative c = none)) ∧
    ((∀ v : blas.Order, blas.Order.fromNative v.into = some v) ∧
     (∀ c : Int, c ∉ orderCodes → blas.Order.fromNative c = none)) ∧
    ((∀ v : blas.Side, blas.Side.fromNative v.into = some v) ∧
     (∀ c : Int, c ∉ sideCodes → blas.Side.fromNative c = none)) ∧
    ((∀ v : blas.Diag, blas.Diag.fromNative v.into = some v) ∧
     (∀ c : Int, c ∉ diagCodes → blas.Diag.fromNative c = none)) ∧
    ((∀ v : enums.VegasMode, enums.VegasMode.fromNative v.into = some v) ∧
     (∀ c : Int, c ∉ vegasModeCodes → enums.VegasMode.fromNative c = none)) := by
  refine ⟨⟨?_, ?_⟩, ⟨?_, ?_⟩, ⟨?_, ?_⟩, ⟨?_, ?_⟩, ⟨?_, ?_⟩, ⟨?_, ?_⟩⟩
  · intro v; cases v <;> decide
  · intro c hc
    simp only [transposeCodes, CBLAS_TRANSPOSE_CblasNoTrans,
      CBLAS_TRANSPOSE_CblasTrans, CBLAS_TRANSPOSE_CblasConjTrans,
      List.mem_cons, List.not_mem_nil, or_false, not_or] at hc
    obtain ⟨h1, h2, h3⟩ := hc
    simp [blas.Transpose.fromNative, CBLAS_TRANSPOSE_CblasNoTrans,
      CBLAS_TRANSPOSE_CblasTrans, CBLAS_TRANSPOSE_CblasConjTrans, h1, h2, h3]
  · intro v; cases v <;> decide
  · intro c hc
    simp only [uploCodes, CBLAS_UPLO_CblasUpper, CBLAS_UPLO_CblasLower,
      List.mem_cons, List.not_mem_nil, or_false, not_or] at hc
    obtain ⟨h1, h2⟩ := hc
    simp [blas.Uplo.fromNative, CBLAS_UPLO_CblasUpper, CBLAS_UPLO_CblasLower,
      h1, h2]
  · intro v; cases v <;> decide
  · intro c hc
    simp only [orderCodes, CBLAS_ORDER_CblasRowMajor, CBLAS_ORDER_CblasColMajor,
      List.mem_cons, List.not_mem_nil, or_false, not_or] at hc
    obtain ⟨h1, h2⟩ := hc
    simp [blas.Order.fromNative, CBLAS_ORDER_CblasRowMajor,
      CBLAS_ORDER_CblasColMajor, h1, h2]
  · intro v; cases v <;> decide
  · intro c hc
    simp only [sideCodes, CBLAS_SIDE_CblasLeft, CBLAS_SIDE_CblasRight,
      List.mem_cons, List.not_mem_nil, or_false, not_or] at hc
    obtain ⟨h1, h2⟩ := hc
    simp [blas.Side.fromNative, CBLAS_SIDE_CblasLeft, CBLAS_SIDE_CblasRight,
      h1, h2]
  · intro v; cases v <;> decide
  · intro c hc
    simp only [diagCodes, CBLAS_DIAG_CblasNonUnit, CBLAS_DIAG_CblasUnit,
      List.mem_cons, List.not_mem_nil, or_false, not_or] at hc
    obtain ⟨h1, h2⟩ := hc
    simp [blas.Diag.fromNative, CBLAS_DIAG_CblasNonUnit, CBLAS_DIAG_CblasUnit,
      h1, h2]
  · intro v; cases v <;> decide
  · intro c hc
    simp only [vegasModeCodes, GSL_VEGAS_MODE_IMPORTANCE,
      GSL_VEGAS_MODE_IMPORTANCE_ONLY, GSL_VEGAS_MODE_STRATIFIED,
      List.mem_cons, List.not_mem_nil, or_false, not_or] at hc
    obtain ⟨h1, h2, h3⟩ := hc
    simp [enums.VegasMode.fromNative, GSL_VEGAS_MODE_IMPORTANCE,
      GSL_VEGAS_MODE_IMPORTANCE_ONLY, GSL_VEGAS_MODE_STRATIFIED, h1, h2, h3]

/-- Witness for C7 at concrete variants and at the unrecognized codes 999
(for `Transpose`) and 7 (for `VegasMode`). -/
theorem transcoder_two_way_witness :
    blas.Transpose.fromNative blas.Transpose.ConjugateTranspose.into =
      some blas.Transpose.ConjugateTranspose ∧
    ((999 : Int) ∉ transposeCodes ∧ blas.Transpose.fromNative 999 = none) ∧
    enums.VegasMode.fromNative enums.VegasMode.Stratified.into =
      some enums.VegasMode.Stratified ∧
    ((7 : Int) ∉ vegasModeCodes ∧ enums.VegasMode.fromNative 7 = none) :=
  ⟨transcoder_two_way.1.1 blas.Transpose.ConjugateTranspose,
   ⟨by decide, transcoder_two_way.1.2 999 (by decide)⟩,
   transcoder_two_way.2.2.2.2.2.1 enums.VegasMode.Stratified,
   ⟨by decide, transcoder_two_way.2.2.2.2.2.2 7 (by decide)⟩⟩

/-- Outcome of one call-through wrapper invocation: how many times the
underlying native routine was invoked, and the value returned to the caller
(`none` models a Rust panic, which returns nothing). -/
structure CallOutcome (α : Type) where
  nativeCalls : Nat
  result : Option α
  deriving DecidableEq, Repr

/-- Modelled from the spec: `check_equal_len` of the crate's `vector` module
(declared at `src/cblas.rs` line 6; the module's file is not among the
sources here).  Per §4.2 of the spec a length mismatch between two views
"signals `Error::BadLength`". -/
def check_equal_len (lenx leny : Nat) : Except Error Unit :=
  if lenx = leny then .ok () else .error .BadLength

/-- `blas::s::rotm` (blas.rs lines 272-280): an explicit length comparison
that `panic!`s on mismatch, then one native call whose status is translated
by `Error::handle`.  The native status is an input of the model; the
`[f32; 5]` parameter plays no role in the control flow and is omitted. -/
def blas.s.rotm (lenx leny : Nat) (nativeStatus : Int) :
    CallOutcome (Except Error Unit) :=
  if lenx ≠ leny then { nativeCalls := 0, result := none }
  else { nativeCalls := 1, result := some (Error.handle nativeStatus ()) }

/-- `blas::d::drotm` (blas.rs lines 731-739): same shape as `blas::s::rotm`. -/
def blas.d.drotm (lenx leny : Nat) (nativeStatus : Int) :
    CallOutcome (Except Error Unit) :=
  if lenx ≠ leny then { nativeCalls := 0, result := none }
  else { nativeCalls := 1, result := some (Error.handle nativeStatus ()) }

/-- `blas::s::axpy` (blas.rs lines 225-228): no length check at all — the
native routine is invoked unconditionally and its status translated (GSL
itself reports the mismatch through the returned status). -/
def blas.s.axpy (lenx leny : Nat) (nativeStatus : Int) :
    CallOutcome (Except Error Unit) :=
  { nativeCalls := 1, result := some (Error.handle nativeStatus ()) }

/-- `cblas::s::swap` (cblas.rs lines 87-94):
`check_equal_len(x, y).expect(...)` panics on mismatch; otherwise one native
call.  The Rust return type is `()`, so no `Error` value is ever returned. -/
def cblas.s.swap (lenx leny : Nat) : CallOutcome Unit :=
  match check_equal_len lenx leny with
  | .ok _ => { nativeCalls := 1, result := some () }
  | .error _ => { nativeCalls := 0, result := none }

/-- `cblas::s::copy` (cblas.rs lines 98-105): same shape as `cblas::s::swap`. -/
def cblas.s.copy (lenx leny : Nat) : CallOutcome Unit :=
  match check_equal_len lenx leny with
  | .ok _ => { nativeCalls := 1, result := some () }
  | .error _ => { nativeCalls := 0, result := none }

/-- `cblas::s::axpy` (cblas.rs lines 109-125): same shape as
`cblas::s::swap`; the scalar argument plays no role in the control flow. -/
def cblas.s.axpy (lenx leny : Nat) : CallOutcome Unit :=
  match check_equal_len lenx leny with
  | .ok _ => { nativeCalls := 1, result := some () }
  | .error _ => { nativeCalls := 0, result := none }

/-- C3 counterexample: at lengths 3 and 4 `blas::s::rotm` panics (returns
nothing) instead of returning `Err(Error::BadLength)`, and `cblas::s::swap`
likewise panics (its return type cannot even carry an `Error`); moreover
`blas::s::axpy` — also a two-view call-through operation — invokes the
native routine despite the mismatch, so neither part of the claimed
behavior is uniform. -/
theorem length_mismatch_counterexample :
    (blas.s.rotm 3 4 GSL_SUCCESS).result = none ∧
    (blas.s.rotm 3 4 GSL_SUCCESS).result ≠ some (Except.error Error.BadLength) ∧
    (blas.s.rotm 3 4 GSL_SUCCESS).nativeCalls = 0 ∧
    (cblas.s.swap 3 4).result = none ∧
    (cblas.s.swap 3 4).nativeCalls = 0 ∧
    (blas.s.axpy 3 4 GSL_EBADLEN).nativeCalls = 1 := by decide

/-- C3 amended: for the length-checking two-view operations (`blas` rotm and
drotm, the `cblas` wrappers swap/copy/axpy), a length mismatch is detected
before the native call — the operation panics (for the cblas wrappers, after
`check_equal_len` signals the `BadLength` condition) and the underlying
native routine is never invoked; no `Err(Error::BadLength)` is returned. -/
theorem length_mismatch_panics_before_native (lenx leny : Nat) (status : Int)
    (h : lenx ≠ leny) :
    blas.s.rotm lenx leny status = { nativeCalls := 0, result := none } ∧
    blas.d.drotm lenx leny status = { nativeCalls := 0, result := none } ∧
    cblas.s.swap lenx leny = { nativeCalls := 0, result := none } ∧
    cblas.s.copy lenx leny = { nativeCalls := 0, result := none } ∧
    cblas.s.axpy lenx leny = { nativeCalls := 0, result := none } ∧
    check_equal_len lenx leny = Except.error Error.BadLength := by
  refine ⟨?_, ?_, ?_, ?_, ?_, ?_⟩ <;>
    simp [blas.s.rotm, blas.d.drotm, cblas.s.swap, cblas.s.copy,
      cblas.s.axpy, check_equal_len, h]

/-- Witness for the amended C3 at lengths 3 and 4. -/
theorem length_mismatch_panics_before_native_witness :
    blas.s.rotm 3 4 GSL_SUCCESS = { nativeCalls := 0, result := none } ∧
    cblas.s.swap 3 4 = { nativeCalls := 0, result := none } :=
  ⟨(length_mismatch_panics_before_native 3 4 GSL_SUCCESS (by decide)).1,
   (length_mismatch_panics_before_native 3 4 GSL_SUCCESS (by decide)).2.2.1⟩

/-- A native pointer as returned by a GSL allocator: null or a valid
address. -/
inductive NativePtr where
  | null
  | valid (addr : Nat)
  deriving DecidableEq, Repr

/-- The `FilterGaussianWorkspace` wrapper of `src/types/filter.rs`. -/
structure FilterGaussianWorkspace where
  ptr : NativePtr
  deriving DecidableEq, Repr

/-- `FilterGaussianWorkspace::new` (filter.rs lines 16-23): the pointer
returned by `gsl_filter_gaussian_alloc(K)` is the model input; a null
result yields `None`, any other is wrapped into `Some`. -/
def FilterGaussianWorkspace.new (s : NativePtr) : Option FilterGaussianWorkspace :=
  if s = .null then none else some { ptr := s }

/-- The `FilterMedianWorkspace` wrapper of `src/types/filter.rs`. -/
structure FilterMedianWorkspace where
  ptr : NativePtr
  deriving DecidableEq, Repr

/-- `FilterMedianWorkspace::new` (filter.rs lines 61-68). -/
def FilterMedianWorkspace.new (s : NativePtr) : Option FilterMedianWorkspace :=
  if s = .null then none else some { ptr := s }

/-- The `FilterRMedianWorkspace` wrapper of `src/types/filter.rs`. -/
structure FilterRMedianWorkspace where
  ptr : NativePtr
  deriving DecidableEq, Repr

/-- `FilterRMedianWorkspace::new` (filter.rs lines 97-104). -/
def FilterRMedianWorkspace.new (s : NativePtr) : Option FilterRMedianWorkspace :=
  if s = .null then none else some { ptr := s }

/-- The `FilterImpulseWorkspace` wrapper of `src/types/filter.rs`. -/
structure FilterImpulseWorkspace where
  ptr : NativePtr
  deriving DecidableEq, Repr

/-- `FilterImpulseWorkspace::new` (filter.rs lines 133-140). -/
def FilterImpulseWorkspace.new (s : NativePtr) : Option FilterImpulseWorkspace :=
  if s = .null then none else some { ptr := s }

/-- C10: each filter workspace constructor returns `None` exactly when the
native allocator returned a null pointer, and otherwise `Some` of a wrapper
holding that very (non-null) handle — so no wrapper exposed through the
public interface ever holds a null native handle. -/
theorem filter_new_none_iff_null :
    (∀ s, (FilterGaussianWorkspace.new s = none ↔ s = NativePtr.null) ∧
      ∀ w, FilterGaussianWorkspace.new s = some w →
        w.ptr = s ∧ w.ptr ≠ NativePtr.null) ∧
    (∀ s, (FilterMedianWorkspace.new s = none ↔ s = NativePtr.null) ∧
      ∀ w, FilterMedianWorkspace.new s = some w →
        w.ptr = s ∧ w.ptr ≠ NativePtr.null) ∧
    (∀ s, (FilterRMedianWorkspace.new s = none ↔ s = NativePtr.null) ∧
      ∀ w, FilterRMedianWorkspace.new s = some w →
        w.ptr = s ∧ w.ptr ≠ NativePtr.null) ∧
    (∀ s, (FilterImpulseWorkspace.new s = none ↔ s = NativePtr.null) ∧
      ∀ w, FilterImpulseWorkspace.new s = some w →
        w.ptr = s ∧ w.ptr ≠ NativePtr.null) := by
  refine ⟨fun s => ⟨?_, ?_⟩, fun s => ⟨?_, ?_⟩, fun s => ⟨?_, ?_⟩,
    fun s => ⟨?_, ?_⟩⟩ <;>
    by_cases hs : s = NativePtr.null
  · simp [FilterGaussianWorkspace.new, hs]
  · simp [FilterGaussianWorkspace.new, hs]
  · intro w hw
    simp [FilterGaussianWorkspace.new, hs] at hw
  · intro w hw
    unfold FilterGaussianWorkspace.new at hw
    rw [if_neg hs] at hw
    injection hw with h
    subst h
    exact ⟨rfl, hs⟩
  · simp [FilterMedianWorkspace.new, hs]
  · simp [FilterMedianWorkspace.new, hs]
  · intro w hw
    simp [FilterMedianWorkspace.new, hs] at hw
  · intro w hw
    unfold FilterMedianWorkspace.new at hw
    rw [if_neg hs] at hw
    injection hw with h
    subst h
    exact ⟨rfl, hs⟩
  · simp [FilterRMedianWorkspace.new, hs]
  · simp [FilterRMedianWorkspace.new, hs]
  · intro w hw
    simp [FilterRMedianWorkspace.new, hs] at hw
  · intro w hw
    unfold FilterRMedianWorkspace.new at hw
    rw [if_neg hs] at hw
    injection hw with h
    subst h
    exact ⟨rfl, hs⟩
  · simp [FilterImpulseWorkspace.new, hs]
  · simp [FilterImpulseWorkspace.new, hs]
  · intro w hw
    simp [FilterImpulseWorkspace.new, hs] at hw
  · intro w hw
    unfold FilterImpulseWorkspace.new at hw
    rw [if_neg hs] at hw
    injection hw with h
    subst h
    exact ⟨rfl, hs⟩

/-- Witness for C10: a non-null allocation wraps into `Some` of a wrapper
holding that handle. -/
theorem filter_new_none_iff_null_witness :
    (FilterGaussianWorkspace.mk (NativePtr.valid 1)).ptr = NativePtr.valid 1 ∧
    (FilterGaussianWorkspace.mk (NativePtr.valid 1)).ptr ≠ NativePtr.null :=
  (filter_new_none_iff_null.1 (NativePtr.valid 1)).2
    (FilterGaussianWorkspace.mk (NativePtr.valid 1)) (by decide)

/-- What a constructor's result lets the caller observe about a failure. -/
inductive ConstructorSignal where
  | success
  | failure (carried : Option Error)
  deriving DecidableEq, Repr

/-- The signal observable from an `Option`-returning constructor: a `None`
return reports a failure that carries no `Error` payload. -/
def signalOf {α : Type} (r : Option α) : ConstructorSignal :=
  match r with
  | some _ => .success
  | none => .failure none

/-- Follows the spec's words (§4.1): "constructing from a null handle signals
`Error::NoMemory`; no other failure mode at this layer" — stated for
comparison with the `Option`-returning constructors actually in
`filter.rs`. -/
def wrap_layer_new_spec (s : NativePtr) : Except Error FilterGaussianWorkspace :=
  if s = .null then .error .NoMemory else .ok { ptr := s }

/-- C6 counterexample: at a null allocation `FilterGaussianWorkspace::new`
returns `None` — a failure signal that carries no `Error` value — and not
the `Err(Error::NoMemory)` the claim states (which is what the spec-worded
layer `wrap_layer_new_spec` would produce). -/
theorem filter_null_no_nomemory_counterexample :
    FilterGaussianWorkspace.new NativePtr.null = none ∧
    signalOf (FilterGaussianWorkspace.new NativePtr.null) =
      ConstructorSignal.failure none ∧
    ConstructorSignal.failure none ≠
      ConstructorSignal.failure (some Error.NoMemory) ∧
    wrap_layer_new_spec NativePtr.null = Except.error Error.NoMemory := by
  decide

/-- C6 amended: constructing from a null handle signals allocation failure
by returning `None` (no `Error::NoMemory` value is produced), and this is
the only failure mode at that layer — every non-null freshly allocated
handle wraps successfully into `Some`. -/
theorem filter_null_yields_none (s : NativePtr) :
    (s = NativePtr.null →
      FilterGaussianWorkspace.new s = none ∧
      FilterMedianWorkspace.new s = none ∧
      FilterRMedianWorkspace.new s = none ∧
      FilterImpulseWorkspace.new s = none) ∧
    (s ≠ NativePtr.null →
      FilterGaussianWorkspace.new s = some { ptr := s } ∧
      FilterMedianWorkspace.new s = some { ptr := s } ∧
      FilterRMedianWorkspace.new s = some { ptr := s } ∧
      FilterImpulseWorkspace.new s = some { ptr := s }) := by
  constructor
  · intro hs
    subst hs
    decide
  · intro hs
    refine ⟨?_, ?_, ?_, ?_⟩ <;>
      simp [FilterGaussianWorkspace.new, FilterMedianWorkspace.new,
        FilterRMedianWorkspace.new, FilterImpulseWorkspace.new, hs]

/-- Witness for the amended C6 at a null and at a non-null allocation. -/
theorem filter_null_yields_none_witness :
    (FilterGaussianWorkspace.new NativePtr.null = none ∧
     FilterMedianWorkspace.new NativePtr.null = none ∧
     FilterRMedianWorkspace.new NativePtr.null = none ∧
     FilterImpulseWorkspace.new NativePtr.null = none) ∧
    FilterGaussianWorkspace.new (NativePtr.valid 2) =
      some { ptr := NativePtr.valid 2 } :=
  ⟨(filter_null_yields_none NativePtr.null).1 rfl,
   ((filter_null_yields_none (NativePtr.valid 2)).2 (by decide)).1⟩
